import Mathlib

/-!
# Verification of the Upsilon Workshop API data model and operations

A shallow embedding of the Django REST backend (`workshop/api/models.py`,
`workshop/api/serializers.py`, `workshop/api/views.py`). Entities are
records, the database is a `Store` of lists, and each serializer / view
operation is an explicit function on the store. Django/DRF framework
behaviour that the source relies on (read-only fields are stripped from
validated data, `.update(...)` writes only the named columns, foreign keys
with `on_delete=CASCADE` delete dependents) is embedded at the point where
the source invokes it.
-/

/-- A `django.contrib.auth.models.User` row. `models.py` patches the email
field to be unique and required; `groups` is the many-to-many Group set,
kept as a list of group ids in the order the ORM returns them. -/
structure UserRec where
  id : Nat
  username : String
  email : String
  password : String
  is_staff : Bool
  groups : List Nat
deriving Repr, DecidableEq

/-- A `Script` row (`models.py`). Timestamps are abstract ticks;
`views` is the `IntegerField(default=0)` view counter. -/
structure ScriptRec where
  id : Nat
  name : String
  author : Nat
  created : Nat
  modified : Nat
  language : String
  version : String
  description : String
  views : Int
  licence : String
  files : String
  compatibility : List Nat
deriving Repr, DecidableEq

/-- A `Rating` row (`models.py`): a float in [0,5] (embedded as `Rat`),
an optional comment, timestamps, and foreign keys to the rating user and
the rated script. -/
structure RatingRec where
  id : Nat
  rating : Rat
  comment : String
  created : Nat
  modified : Nat
  user : Nat
  script : Nat
deriving Repr, DecidableEq

/-- The relational store backing the API. -/
structure Store where
  users : List UserRec
  scripts : List ScriptRec
  ratings : List RatingRec
deriving Repr, DecidableEq

/-- `django.core.validators.MinValueValidator(limit)`: accepts `value`
iff `limit ≤ value`. -/
def minValueValidator (limit value : Rat) : Bool :=
  decide (limit ≤ value)

/-- `django.core.validators.MaxValueValidator(limit)`: accepts `value`
iff `value ≤ limit`. -/
def maxValueValidator (limit value : Rat) : Bool :=
  decide (value ≤ limit)

/-- The validator list on `Rating.rating`
(`validators=[MinValueValidator(0), MaxValueValidator(5)]`). -/
def ratingFieldValid (value : Rat) : Bool :=
  minValueValidator 0 value && maxValueValidator 5 value

/-- Fresh primary key for a new script row. -/
def freshScriptId (store : Store) : Nat :=
  (store.scripts.map (·.id)).foldr max 0 + 1

/-- Fresh primary key for a new rating row. -/
def freshRatingId (store : Store) : Nat :=
  (store.ratings.map (·.id)).foldr max 0 + 1

/-- Fresh primary key for a new user row. -/
def freshUserId (store : Store) : Nat :=
  (store.users.map (·.id)).foldr max 0 + 1

/-- Client request body for a Script creation. `author` may carry a
client-supplied value, but `author` is in `read_only_fields` of
`ScriptSerializer.Meta`, so DRF strips it from `validated_data`; the
`create` override then assigns the requesting user. -/
structure ScriptCreateBody where
  name : String
  language : String
  version : String
  description : String
  files : String
  licence : String
  compatibility : List Nat
  author : Option Nat
deriving Repr, DecidableEq

/-- `ScriptSerializer.create` (`serializers.py` lines 97-104): sets
`validated_data[author] := request.user` and creates the row; `created`
and `modified` are `auto_now_add` / `auto_now`, `views` defaults to 0. -/
def ScriptSerializer.create (store : Store) (requester : UserRec)
    (body : ScriptCreateBody) (now : Nat) : Store × ScriptRec :=
  let s : ScriptRec :=
    { id := freshScriptId store
      name := body.name
      author := requester.id
      created := now
      modified := now
      language := body.language
      version := body.version
      description := body.description
      views := 0
      licence := body.licence
      files := body.files
      compatibility := body.compatibility }
  ({ store with scripts := store.scripts ++ [s] }, s)

/-- Client request body for a Rating creation. `user` may carry a
client-supplied value, but `user` is in `read_only_fields` of
`RatingSerializer.Meta`, so DRF strips it; `create` assigns the
requesting user. -/
structure RatingCreateBody where
  rating : Rat
  comment : String
  script : Nat
  user : Option Nat
deriving Repr, DecidableEq

/-- `RatingSerializer.create` (`serializers.py` lines 121-127) together
with field validation of `Rating.rating` (`models.py` lines 25-27): a
rating outside [0,5] fails validation and nothing is written; otherwise
the row is created with `user := request.user`. -/
def RatingSerializer.create (store : Store) (requester : UserRec)
    (body : RatingCreateBody) (now : Nat) : Store × Except String RatingRec :=
  if ratingFieldValid body.rating then
    let r : RatingRec :=
      { id := freshRatingId store
        rating := body.rating
        comment := body.comment
        created := now
        modified := now
        user := requester.id
        script := body.script }
    ({ store with ratings := store.ratings ++ [r] }, Except.ok r)
  else
    (store, Except.error "Ensure this value is in the range 0 to 5.")

/-- `self.get_object()` in `ScriptViewSet.retrieve`: fetch the script row
by primary key into handler memory. -/
def retrieveReadStep (store : Store) (pk : Nat) : Option ScriptRec :=
  store.scripts.find? (fun s => s.id == pk)

/-- `Script.objects.filter(pk=instance.id).update(views=instance.views + 1)`:
a direct column update that writes the value `instance.views + 1` computed
from the in-memory snapshot. Only the `views` column is written; `auto_now`
is not triggered, so `modified` stays. -/
def retrieveWriteStep (store : Store) (inst : ScriptRec) : Store :=
  { store with
      scripts := store.scripts.map (fun s =>
        if s.id == inst.id then { s with views := inst.views + 1 } else s) }

/-- `ScriptViewSet.retrieve` (`views.py` lines 54-57): fetch the object,
bump its view counter with the snapshot value, and return the instance. -/
def ScriptViewSet.retrieve (store : Store) (pk : Nat) :
    Option (Store × ScriptRec) :=
  match retrieveReadStep store pk with
  | none => none
  | some inst => some (retrieveWriteStep store inst, inst)

/-- Validated data for a User update; each field is present or absent
(`partial` PATCH semantics and omitted fields alike). `scripts` and
`ratings` are read-only, so they never appear here. -/
structure UserUpdateData where
  username : Option String
  email : Option String
  groups : Option (List Nat)
deriving Repr, DecidableEq

/-- `super().update(instance, validated_data)`: apply the present fields. -/
def applyUserUpdate (inst : UserRec) (vd : UserUpdateData) : UserRec :=
  { inst with
      username := vd.username.getD inst.username
      email := vd.email.getD inst.email
      groups := vd.groups.getD inst.groups }

/-- `UserSerializer.update` (`serializers.py` lines 21-45): for a
non-staff requester, compare the instance group list with the requested
group list (absent `groups` means `[]`); on mismatch raise
`PermissionDenied`, else (and for staff always) apply the update. -/
def UserSerializer.update (requester inst : UserRec) (vd : UserUpdateData) :
    Except String UserRec :=
  if !requester.is_staff then
    let user_groups := inst.groups
    let new_groups := vd.groups.getD []
    if user_groups ≠ new_groups then
      Except.error "You can\x27t add or remove yourself from groups"
    else
      Except.ok (applyUserUpdate inst vd)
  else
    Except.ok (applyUserUpdate inst vd)

/-- The store-level User update: find the target row, run the serializer
update, and either write the updated row back or leave the store untouched
and surface the error message. -/
def userUpdateOp (store : Store) (requester : UserRec) (targetId : Nat)
    (vd : UserUpdateData) : Store × Option String :=
  match store.users.find? (fun u => u.id == targetId) with
  | none => (store, some "Not found.")
  | some inst =>
    match UserSerializer.update requester inst vd with
    | Except.error e => (store, some e)
    | Except.ok updated =>
      ({ store with
          users := store.users.map (fun u =>
            if u.id == targetId then updated else u) }, none)

/-- Hyperlinked url of a user row. -/
def userUrl (uid : Nat) : String :=
  "/users/" ++ toString uid ++ "/"

/-- Reverse relation `User.scripts` (scripts authored by the user). -/
def userScriptIds (store : Store) (uid : Nat) : List Nat :=
  (store.scripts.filter (fun s => s.author == uid)).map (·.id)

/-- Reverse relation `User.ratings` (ratings made by the user). -/
def userRatingIds (store : Store) (uid : Nat) : List Nat :=
  (store.ratings.filter (fun r => r.user == uid)).map (·.id)

/-- The full serialized representation of a user, fields as declared in
`UserSerializer.Meta.fields`. -/
def userFullRepresentation (store : Store) (inst : UserRec) :
    List (String × String) :=
  [("url", userUrl inst.id),
   ("username", inst.username),
   ("email", inst.email),
   ("groups", toString inst.groups),
   ("scripts", toString (userScriptIds store inst.id)),
   ("ratings", toString (userRatingIds store inst.id))]

/-- Dictionary lookup `representation[key]` on a serialized form. -/
def lookupField (rep : List (String × String)) (key : String) : String :=
  (rep.lookup key).getD ""

/-- `UserSerializer.to_representation` (`serializers.py` lines 48-66):
staff and self see the full representation; any other caller gets a dict
rebuilt from only url, username, groups, scripts, ratings. Model equality
`instance == request.user` is primary-key equality. -/
def UserSerializer.to_representation (store : Store)
    (requester inst : UserRec) : List (String × String) :=
  if inst.id == requester.id || requester.is_staff then
    userFullRepresentation store inst
  else
    let representation := userFullRepresentation store inst
    [("url", lookupField representation "url"),
     ("username", lookupField representation "username"),
     ("groups", lookupField representation "groups"),
     ("scripts", lookupField representation "scripts"),
     ("ratings", lookupField representation "ratings")]

/-- Registration request body (`RegisterSerializer.Meta.fields`):
username, password, email, all required. -/
structure RegisterBody where
  username : String
  password : String
  email : String
deriving Repr, DecidableEq

/-- Modelled from the spec: `User.objects.create_user` (Django auth, not
part of this repository's sources) stores a salted hash of the submitted
password via the standard account-creation path, never the plaintext. The
hash is abstracted as a tagged transformation of the input that differs
from every plaintext. -/
def make_password (raw : String) : String :=
  "pbkdf2_sha256$390000$" ++ raw

/-- `RegisterSerializer.create` (`serializers.py` lines 145-171) with the
uniqueness constraints patched onto `User` in `models.py` lines 14-18
(email unique) and Django's built-in unique username: a duplicate email or
username is a validation error and no row is written; otherwise
`create_user` stores the hashed password, and the response payload carries
only the non-write-only fields (password is `write_only`). -/
def RegisterSerializer.create (store : Store) (body : RegisterBody) :
    Store × Except String (List (String × String)) :=
  if store.users.any (fun u => u.email == body.email) then
    (store, Except.error "user with this email address already exists.")
  else if store.users.any (fun u => u.username == body.username) then
    (store, Except.error "A user with that username already exists.")
  else
    let u : UserRec :=
      { id := freshUserId store
        username := body.username
        email := body.email
        password := make_password body.password
        is_staff := false
        groups := [] }
    ({ store with users := store.users ++ [u] },
     Except.ok [("username", u.username), ("email", u.email)])

/-- Deleting a Script: `Rating.script` has `on_delete=CASCADE`
(`models.py` lines 45-49), so every rating referencing the script is
deleted with it. -/
def deleteScript (store : Store) (pk : Nat) : Store :=
  { store with
      scripts := store.scripts.filter (fun s => s.id != pk)
      ratings := store.ratings.filter (fun r => r.script != pk) }

/-- Deleting a User: `Script.author` and `Rating.user` both have
`on_delete=CASCADE` (`models.py` lines 109-113 and 38-42), so the user's
scripts and ratings are deleted, and ratings of the deleted scripts
cascade away through `Rating.script`. -/
def deleteUser (store : Store) (uid : Nat) : Store :=
  let deadScripts := (store.scripts.filter (fun s => s.author == uid)).map (·.id)
  { users := store.users.filter (fun u => u.id != uid)
    scripts := store.scripts.filter (fun s => s.author != uid)
    ratings := store.ratings.filter (fun r =>
      r.user != uid && !(decide (r.script ∈ deadScripts))) }

/-- Deleting a Rating: no dependents. -/
def deleteRating (store : Store) (rid : Nat) : Store :=
  { store with ratings := store.ratings.filter (fun r => r.id != rid) }

/-- Validated data for a Script update. `created`, `modified`, `views`,
`author` and `ratings` are in `read_only_fields`, so DRF drops any
client-supplied value for them before `update` runs; the fields below are
the writable ones. `modified` is `auto_now`, so a successful update stamps
it with the current time. -/
structure ScriptUpdateBody where
  name : Option String
  language : Option String
  version : Option String
  description : Option String
  files : Option String
  licence : Option String
  compatibility : Option (List Nat)
deriving Repr, DecidableEq

/-- The default `ModelViewSet` update on a Script: writable fields are
applied, `modified` is re-stamped, read-only columns (`views`, `author`,
`created`) are untouched. -/
def scriptUpdateOp (store : Store) (pk : Nat) (vd : ScriptUpdateBody)
    (now : Nat) : Store :=
  { store with
      scripts := store.scripts.map (fun s =>
        if s.id == pk then
          { s with
              name := vd.name.getD s.name
              language := vd.language.getD s.language
              version := vd.version.getD s.version
              description := vd.description.getD s.description
              files := vd.files.getD s.files
              licence := vd.licence.getD s.licence
              compatibility := vd.compatibility.getD s.compatibility
              modified := now }
        else s) }

/-- Every store-mutating operation the API exposes, for stating frame and
monotonicity properties over the whole surface. -/
inductive Op where
  | retrieveScript (pk : Nat)
  | createScript (requester : UserRec) (body : ScriptCreateBody) (now : Nat)
  | updateScript (pk : Nat) (vd : ScriptUpdateBody) (now : Nat)
  | createRating (requester : UserRec) (body : RatingCreateBody) (now : Nat)
  | updateUser (requester : UserRec) (targetId : Nat) (vd : UserUpdateData)
  | register (body : RegisterBody)
  | destroyUser (uid : Nat)
  | destroyScript (pk : Nat)
  | destroyRating (rid : Nat)
deriving Repr

/-- The store after running an operation (responses discarded). -/
def applyOp (store : Store) : Op → Store
  | Op.retrieveScript pk =>
    match ScriptViewSet.retrieve store pk with
    | none => store
    | some (store', _) => store'
  | Op.createScript q b now => (ScriptSerializer.create store q b now).1
  | Op.updateScript pk vd now => scriptUpdateOp store pk vd now
  | Op.createRating q b now => (RatingSerializer.create store q b now).1
  | Op.updateUser q t vd => (userUpdateOp store q t vd).1
  | Op.register b => (RegisterSerializer.create store b).1
  | Op.destroyUser uid => deleteUser store uid
  | Op.destroyScript pk => deleteScript store pk
  | Op.destroyRating rid => deleteRating store rid

/-- Primary keys of script rows are unique (a database invariant). -/
def NodupScriptIds (store : Store) : Prop :=
  (store.scripts.map (·.id)).Nodup

/-! ## Helper lemmas -/

/-- Two script rows of a store with distinct primary keys that share an id
are the same row. -/
theorem script_id_inj {store : Store} (hnd : NodupScriptIds store)
    {a b : ScriptRec} (ha : a ∈ store.scripts) (hb : b ∈ store.scripts)
    (hid : a.id = b.id) : a = b :=
  List.inj_on_of_nodup_map hnd ha hb hid

/-- Every element of a list of naturals is at most the running maximum. -/
theorem le_foldr_max {l : List Nat} {x : Nat} (h : x ∈ l) :
    x ≤ l.foldr max 0 := by
  induction l with
  | nil => cases h
  | cons a t ih =>
    rcases List.mem_cons.mp h with rfl | h
    · exact le_max_left _ _
    · exact le_trans (ih h) (le_max_right _ _)

/-- A freshly allocated script id is strictly larger than every existing
script id. -/
theorem freshScriptId_gt {store : Store} {s : ScriptRec}
    (h : s ∈ store.scripts) : s.id < freshScriptId store := by
  have : s.id ≤ (store.scripts.map (·.id)).foldr max 0 :=
    le_foldr_max (List.mem_map_of_mem _ h)
  unfold freshScriptId
  omega

/-- The scripts table is untouched by a user update. -/
theorem userUpdateOp_scripts (store : Store) (q : UserRec) (t : Nat)
    (vd : UserUpdateData) : (userUpdateOp store q t vd).1.scripts = store.scripts := by
  unfold userUpdateOp
  rcases hf : store.users.find? (fun u => u.id == t) with _ | inst
  · simp [hf]
  · simp only [hf]
    rcases hu : UserSerializer.update q inst vd with e | u <;> simp [hu]

/-- The scripts table is untouched by a registration. -/
theorem register_scripts (store : Store) (b : RegisterBody) :
    (RegisterSerializer.create store b).1.scripts = store.scripts := by
  unfold RegisterSerializer.create
  split
  · rfl
  · split <;> rfl

/-- The scripts table is untouched by a rating creation. -/
theorem ratingCreate_scripts (store : Store) (q : UserRec)
    (b : RatingCreateBody) (now : Nat) :
    (RatingSerializer.create store q b now).1.scripts = store.scripts := by
  unfold RatingSerializer.create
  split <;> rfl

/-! ## Concrete rows used to instantiate the theorems -/

/-- A concrete non-staff requester. -/
def wAlice : UserRec :=
  { id := 7, username := "alice", email := "alice@example.org",
    password := "x", is_staff := false, groups := [] }

/-- A concrete store holding only `wAlice`. -/
def wStore : Store := { users := [wAlice], scripts := [], ratings := [] }

/-- A script creation body carrying a client-supplied `author` value. -/
def wScriptBody : ScriptCreateBody :=
  { name := "plotter", language := "python", version := "1.0",
    description := "", files := "main.py", licence := "MIT",
    compatibility := [], author := some 999 }

/-- A rating creation body carrying a client-supplied `user` value. -/
def wRatingBody : RatingCreateBody :=
  { rating := 3, comment := "", script := 1, user := some 999 }

/-- The rating row created from `wRatingBody` by `wAlice` at tick 0. -/
def wRating : RatingRec :=
  { id := 1, rating := 3, comment := "", created := 0, modified := 0,
    user := 7, script := 1 }

/-- The store after `wAlice` rates via `wRatingBody`. -/
def wStoreRated : Store := { wStore with ratings := [wRating] }

/-- C1: on Script creation and on Rating creation the stored row's
`author` / `user` is the authenticated requester, whatever author/user
value the client put in the request body. -/
theorem c1_create_forces_author_and_user
    (store : Store) (requester : UserRec) (body : ScriptCreateBody)
    (rbody : RatingCreateBody) (now : Nat) (store' : Store) (r : RatingRec)
    (h : RatingSerializer.create store requester rbody now =
      (store', Except.ok r)) :
    (ScriptSerializer.create store requester body now).2.author = requester.id ∧
    (ScriptSerializer.create store requester body now).2 ∈
      (ScriptSerializer.create store requester body now).1.scripts ∧
    r.user = requester.id ∧ r ∈ store'.ratings := by
  refine ⟨rfl, by simp [ScriptSerializer.create], ?_, ?_⟩
  · unfold RatingSerializer.create at h
    split at h
    · simp only [Prod.mk.injEq, Except.ok.injEq] at h
      rw [← h.2]
    · simp at h
  · unfold RatingSerializer.create at h
    split at h
    · simp only [Prod.mk.injEq, Except.ok.injEq] at h
      rw [← h.1, ← h.2]
      simp
    · simp at h

/-- Witness for C1 at a concrete store, requester and bodies that both
carry a bogus client-supplied author/user id 999. -/
theorem c1_witness :
    (RatingSerializer.create wStore wAlice wRatingBody 0 =
      (wStoreRated, Except.ok wRating)) ∧
    ((ScriptSerializer.create wStore wAlice wScriptBody 0).2.author = wAlice.id ∧
     (ScriptSerializer.create wStore wAlice wScriptBody 0).2 ∈
       (ScriptSerializer.create wStore wAlice wScriptBody 0).1.scripts ∧
     wRating.user = wAlice.id ∧ wRating ∈ wStoreRated.ratings) :=
  ⟨rfl,
   c1_create_forces_author_and_user wStore wAlice wScriptBody wRatingBody 0
     wStoreRated wRating rfl⟩

/-- C5: a rating outside [0,5] is rejected with a validation error and the
store is unchanged; ratings 0 and 5 are accepted. -/
theorem c5_rating_bounds (store : Store) (requester : UserRec)
    (body : RatingCreateBody) (now : Nat) :
    ((body.rating < 0 ∨ 5 < body.rating) →
      RatingSerializer.create store requester body now =
        (store, Except.error "Ensure this value is in the range 0 to 5.")) ∧
    (body.rating = 0 →
      ∃ r, (RatingSerializer.create store requester body now).2 = Except.ok r) ∧
    (body.rating = 5 →
      ∃ r, (RatingSerializer.create store requester body now).2 = Except.ok r) := by
  refine ⟨?_, ?_, ?_⟩
  · intro h
    have hv : ratingFieldValid body.rating = false := by
      simp only [ratingFieldValid, minValueValidator, maxValueValidator,
        Bool.and_eq_false_iff, decide_eq_false_iff_not, not_le]
      rcases h with h | h
      · exact Or.inl h
      · exact Or.inr h
    simp [RatingSerializer.create, hv]
  · intro h
    have hv : ratingFieldValid body.rating = true := by
      simp [ratingFieldValid, minValueValidator, maxValueValidator, h]
    simp [RatingSerializer.create, hv]
  · intro h
    have hv : ratingFieldValid body.rating = true := by
      simp [ratingFieldValid, minValueValidator, maxValueValidator, h]
    simp [RatingSerializer.create, hv]

/-- A rating body with an out-of-range value. -/
def wBadRatingBody : RatingCreateBody :=
  { rating := 6, comment := "", script := 1, user := none }

/-- A rating body at the lower boundary 0. -/
def wZeroRatingBody : RatingCreateBody :=
  { rating := 0, comment := "", script := 1, user := none }

/-- A rating body at the upper boundary 5. -/
def wFiveRatingBody : RatingCreateBody :=
  { rating := 5, comment := "", script := 1, user := none }

/-- Witness for C5: rating 6 is rejected leaving the store unchanged,
ratings 0 and 5 are accepted. -/
theorem c5_witness :
    (wBadRatingBody.rating < 0 ∨ 5 < wBadRatingBody.rating) ∧
    RatingSerializer.create wStore wAlice wBadRatingBody 0 =
      (wStore, Except.error "Ensure this value is in the range 0 to 5.") ∧
    wZeroRatingBody.rating = 0 ∧
    (∃ r, (RatingSerializer.create wStore wAlice wZeroRatingBody 0).2 =
      Except.ok r) ∧
    wFiveRatingBody.rating = 5 ∧
    (∃ r, (RatingSerializer.create wStore wAlice wFiveRatingBody 0).2 =
      Except.ok r) :=
  ⟨by decide,
   (c5_rating_bounds wStore wAlice wBadRatingBody 0).1 (by decide),
   by decide,
   (c5_rating_bounds wStore wAlice wZeroRatingBody 0).2.1 (by decide),
   by decide,
   (c5_rating_bounds wStore wAlice wFiveRatingBody 0).2.2 (by decide)⟩

/-- C9: deleting a User removes every Script authored by them, every
Rating they made, and (through the Script cascade) every Rating of one of
their scripts; deleting a Script removes it and every Rating referencing
it. -/
theorem c9_cascade_delete (store : Store) (uid pk : Nat) :
    (∀ s ∈ (deleteUser store uid).scripts, s.author ≠ uid) ∧
    (∀ r ∈ (deleteUser store uid).ratings, r.user ≠ uid) ∧
    (∀ r ∈ (deleteUser store uid).ratings,
      ∀ s ∈ store.scripts, s.author = uid → r.script ≠ s.id) ∧
    (∀ u ∈ (deleteUser store uid).users, u.id ≠ uid) ∧
    (∀ s ∈ (deleteScript store pk).scripts, s.id ≠ pk) ∧
    (∀ r ∈ (deleteScript store pk).ratings, r.script ≠ pk) := by
  refine ⟨?_, ?_, ?_, ?_, ?_, ?_⟩
  · intro s hs
    have := (List.mem_filter.mp hs).2
    simpa using this
  · intro r hr
    have := (List.mem_filter.mp hr).2
    simp only [Bool.and_eq_true, bne_iff_ne] at this
    exact this.1
  · intro r hr s hs hauth
    have := (List.mem_filter.mp hr).2
    simp only [Bool.and_eq_true, bne_iff_ne, Bool.not_eq_true',
      decide_eq_false_iff_not] at this
    intro hscript
    apply this.2
    rw [hscript]
    refine List.mem_map_of_mem _ ?_
    refine List.mem_filter.mpr ⟨hs, ?_⟩
    simpa using hauth
  · intro u hu
    have := (List.mem_filter.mp hu).2
    simpa using this
  · intro s hs
    have := (List.mem_filter.mp hs).2
    simpa using this
  · intro r hr
    have := (List.mem_filter.mp hr).2
    simpa using this

/-- A second user whose rows must survive deletion of user 7. -/
def wBob : UserRec :=
  { id := 8, username := "bob", email := "bob@example.org",
    password := "y", is_staff := false, groups := [] }

/-- Bob's script (id 2). -/
def wBobScript : ScriptRec :=
  { id := 2, name := "game", author := 8, created := 0, modified := 0,
    language := "python", version := "1.0", description := "",
    views := 0, licence := "MIT", files := "m.py", compatibility := [] }

/-- Alice's script (id 1). -/
def wAliceScript : ScriptRec :=
  { id := 1, name := "plotter", author := 7, created := 0, modified := 0,
    language := "python", version := "1.0", description := "",
    views := 0, licence := "MIT", files := "m.py", compatibility := [] }

/-- Bob's rating of his own script, which survives deleting Alice. -/
def wBobRating : RatingRec :=
  { id := 2, rating := 4, comment := "", created := 0, modified := 0,
    user := 8, script := 2 }

/-- A store with two users, a script and a rating each. -/
def wStoreTwo : Store :=
  { users := [wAlice, wBob],
    scripts := [wAliceScript, wBobScript],
    ratings := [wRating, wBobRating] }

/-- Witness for C9: after deleting user 7 from `wStoreTwo`, Bob's
surviving rating is not by user 7 and does not reference Alice's script. -/
theorem c9_witness :
    wBobRating ∈ (deleteUser wStoreTwo 7).ratings ∧
    wBobRating.user ≠ 7 ∧
    wAliceScript ∈ wStoreTwo.scripts ∧ wAliceScript.author = 7 ∧
    wBobRating.script ≠ wAliceScript.id :=
  ⟨by decide,
   (c9_cascade_delete wStoreTwo 7 1).2.1 wBobRating (by decide),
   by decide, by decide,
   (c9_cascade_delete wStoreTwo 7 1).2.2.1 wBobRating (by decide)
     wAliceScript (by decide) (by decide)⟩

/-- C4: a caller who is neither the profile owner nor staff receives
exactly the fields url, username, groups, scripts, ratings and never an
email entry; the owner or a staff caller receives the full field set with
the email. -/
theorem c4_email_redaction (store : Store) (requester inst : UserRec) :
    (inst.id ≠ requester.id → requester.is_staff = false →
      (UserSerializer.to_representation store requester inst).map Prod.fst =
        ["url", "username", "groups", "scripts", "ratings"] ∧
      ∀ v, ("email", v) ∉ UserSerializer.to_representation store requester inst) ∧
    ((inst.id = requester.id ∨ requester.is_staff = true) →
      (UserSerializer.to_representation store requester inst).map Prod.fst =
        ["url", "username", "email", "groups", "scripts", "ratings"] ∧
      ("email", inst.email) ∈ UserSerializer.to_representation store requester inst) := by
  constructor
  · intro hne hstaff
    have hcond : (inst.id == requester.id || requester.is_staff) = false := by
      simp [hne, hstaff]
    constructor
    · simp [UserSerializer.to_representation, hcond, userFullRepresentation]
    · intro v
      simp [UserSerializer.to_representation, hcond, userFullRepresentation]
  · intro hor
    have hcond : (inst.id == requester.id || requester.is_staff) = true := by
      rcases hor with h | h <;> simp [h]
    constructor
    · simp [UserSerializer.to_representation, hcond, userFullRepresentation]
    · simp [UserSerializer.to_representation, hcond, userFullRepresentation]

/-- A staff user. -/
def wStaff : UserRec :=
  { id := 9, username := "root", email := "root@example.org",
    password := "z", is_staff := true, groups := [1] }

/-- Witness for C4: Bob reading Alice's profile gets the redacted field
list without email; Alice reading herself and staff reading Alice both
get the email entry. -/
theorem c4_witness :
    (wAlice.id ≠ wBob.id ∧ wBob.is_staff = false ∧
      (UserSerializer.to_representation wStoreTwo wBob wAlice).map Prod.fst =
        ["url", "username", "groups", "scripts", "ratings"] ∧
      ("email", wAlice.email) ∉
        UserSerializer.to_representation wStoreTwo wBob wAlice) ∧
    ((wAlice.id = wAlice.id ∨ wAlice.is_staff = true) ∧
      ("email", wAlice.email) ∈
        UserSerializer.to_representation wStoreTwo wAlice wAlice) ∧
    ((wAlice.id = wStaff.id ∨ wStaff.is_staff = true) ∧
      ("email", wAlice.email) ∈
        UserSerializer.to_representation wStoreTwo wStaff wAlice) :=
  ⟨⟨by decide, by decide,
    ((c4_email_redaction wStoreTwo wBob wAlice).1 (by decide) (by decide)).1,
    ((c4_email_redaction wStoreTwo wBob wAlice).1 (by decide) (by decide)).2
      wAlice.email⟩,
   ⟨Or.inl rfl,
    ((c4_email_redaction wStoreTwo wAlice wAlice).2 (Or.inl rfl)).2⟩,
   ⟨Or.inr rfl,
    ((c4_email_redaction wStoreTwo wStaff wAlice).2 (Or.inr rfl)).2⟩⟩

/-- C3: a non-staff caller whose update asks for a group list differing
from the target's current one is rejected with the fixed
`PermissionDenied` message and the store is returned untouched; an
identical request by a staff caller succeeds. -/
theorem c3_nonstaff_group_change_denied
    (store : Store) (requester staffer : UserRec) (targetId : Nat)
    (vd : UserUpdateData) (inst : UserRec)
    (hfind : store.users.find? (fun u => u.id == targetId) = some inst)
    (hns : requester.is_staff = false)
    (hch : vd.groups.getD [] ≠ inst.groups)
    (hst : staffer.is_staff = true) :
    userUpdateOp store requester targetId vd =
      (store, some "You can\x27t add or remove yourself from groups") ∧
    (userUpdateOp store staffer targetId vd).2 = none := by
  constructor
  · unfold userUpdateOp
    rw [hfind]
    unfold UserSerializer.update
    rw [hns]
    simp only [Bool.not_false, if_true]
    rw [if_pos (Ne.symm hch)]
  · unfold userUpdateOp
    rw [hfind]
    unfold UserSerializer.update
    rw [hst]
    simp

/-- Update data asking to join group 1. -/
def wJoinGroupData : UserUpdateData :=
  { username := none, email := none, groups := some [1] }

/-- Witness for C3: Alice (non-staff, no groups) asking to join group 1
is denied with the store untouched; the staff user issuing the same
request for Alice succeeds. -/
theorem c3_witness :
    wStoreTwo.users.find? (fun u => u.id == 7) = some wAlice ∧
    wAlice.is_staff = false ∧
    wJoinGroupData.groups.getD [] ≠ wAlice.groups ∧
    wStaff.is_staff = true ∧
    userUpdateOp wStoreTwo wAlice 7 wJoinGroupData =
      (wStoreTwo, some "You can\x27t add or remove yourself from groups") ∧
    (userUpdateOp wStoreTwo wStaff 7 wJoinGroupData).2 = none :=
  ⟨by decide, by decide, by decide, by decide,
   (c3_nonstaff_group_change_denied wStoreTwo wAlice wStaff 7 wJoinGroupData
     wAlice (by decide) (by decide) (by decide) (by decide)).1,
   (c3_nonstaff_group_change_denied wStoreTwo wAlice wStaff 7 wJoinGroupData
     wAlice (by decide) (by decide) (by decide) (by decide)).2⟩

/-- C10: for a non-staff caller updating a user whose current group list
is non-empty, omitting `groups` from the request is treated as asking for
the empty group list and is rejected with the `PermissionDenied` message;
such an update succeeds exactly when it supplies the current group list. -/
theorem c10_omitted_groups_rejected
    (store : Store) (requester : UserRec) (targetId : Nat)
    (vd : UserUpdateData) (inst : UserRec)
    (hfind : store.users.find? (fun u => u.id == targetId) = some inst)
    (hns : requester.is_staff = false)
    (hne : inst.groups ≠ []) :
    (vd.groups = none →
      userUpdateOp store requester targetId vd =
        (store, some "You can\x27t add or remove yourself from groups")) ∧
    ((userUpdateOp store requester targetId vd).2 = none ↔
      vd.groups = some inst.groups) := by
  constructor
  · intro hnone
    unfold userUpdateOp
    rw [hfind]
    unfold UserSerializer.update
    rw [hns]
    simp only [Bool.not_false, if_true, hnone, Option.getD_none]
    rw [if_pos hne]
  · unfold userUpdateOp
    rw [hfind]
    unfold UserSerializer.update
    rw [hns]
    simp only [Bool.not_false, if_true]
    rcases hg : vd.groups with _ | gs
    · simp only [Option.getD_none]
      rw [if_pos hne]
      simp
    · simp only [Option.getD_some]
      by_cases hgs : inst.groups = gs
      · subst hgs
        rw [if_neg (by simp)]
        simp
      · rw [if_pos hgs]
        simp
        intro h
        exact hgs h.symm

/-- A staff user whose group list is [1]. -/
def wStaffStore : Store :=
  { users := [wStaff, wAlice], scripts := [], ratings := [] }

/-- Update data that omits the `groups` field. -/
def wNoGroupsData : UserUpdateData :=
  { username := some "rooty", email := none, groups := none }

/-- Update data that supplies the current group list [1]. -/
def wSameGroupsData : UserUpdateData :=
  { username := some "rooty", email := none, groups := some [1] }

/-- A non-staff user in group 1, the target of the C10 witness. -/
def wCarol : UserRec :=
  { id := 10, username := "carol", email := "carol@example.org",
    password := "c", is_staff := false, groups := [1] }

/-- A store holding the non-staff group member `wCarol`. -/
def wCarolStore : Store := { users := [wCarol], scripts := [], ratings := [] }

/-- Witness for C10: Carol (non-staff, in group 1) updating herself
without a `groups` field is rejected; supplying exactly [1] succeeds. -/
theorem c10_witness :
    wCarolStore.users.find? (fun u => u.id == 10) = some wCarol ∧
    wCarol.is_staff = false ∧ wCarol.groups ≠ [] ∧
    userUpdateOp wCarolStore wCarol 10 wNoGroupsData =
      (wCarolStore, some "You can\x27t add or remove yourself from groups") ∧
    ((userUpdateOp wCarolStore wCarol 10 wSameGroupsData).2 = none ↔
      wSameGroupsData.groups = some wCarol.groups) :=
  ⟨by decide, by decide, by decide,
   (c10_omitted_groups_rejected wCarolStore wCarol 10 wNoGroupsData wCarol
     (by decide) (by decide) (by decide)).1 rfl,
   (c10_omitted_groups_rejected wCarolStore wCarol 10 wSameGroupsData wCarol
     (by decide) (by decide) (by decide)).2⟩

/-- C6: registration stores a hash (never the plaintext), the response
payload carries no password field, and a duplicate email is rejected with
no user row written. -/
theorem c6_register_hash_unique_email (store : Store) (body : RegisterBody) :
    (∀ p : String, make_password p ≠ p) ∧
    ((∃ u ∈ store.users, u.email = body.email) →
      RegisterSerializer.create store body =
        (store, Except.error "user with this email address already exists.")) ∧
    (∀ store' payload,
      RegisterSerializer.create store body = (store', Except.ok payload) →
      (∃ u ∈ store'.users,
        u.username = body.username ∧ u.email = body.email ∧
        u.password = make_password body.password) ∧
      payload.map Prod.fst = ["username", "email"]) := by
  refine ⟨?_, ?_, ?_⟩
  · intro p h
    have hl := congrArg String.length h
    unfold make_password at hl
    rw [String.length_append] at hl
    have hc : ("pbkdf2_sha256$390000$" : String).length = 21 := rfl
    omega
  · intro hdup
    have hany : store.users.any (fun u => u.email == body.email) = true := by
      rw [List.any_eq_true]
      obtain ⟨u, hu, he⟩ := hdup
      exact ⟨u, hu, by simp [he]⟩
    simp [RegisterSerializer.create, hany]
  · intro store' payload h
    unfold RegisterSerializer.create at h
    split at h
    · simp at h
    · split at h
      · simp at h
      · simp only [Prod.mk.injEq, Except.ok.injEq] at h
        obtain ⟨h1, h2⟩ := h
        subst h1
        refine ⟨⟨⟨freshUserId store, body.username, body.email,
          make_password body.password, false, []⟩, ?_, rfl, rfl, rfl⟩, ?_⟩
        · simp
        · rw [← h2]
          rfl

/-- A registration body reusing Alice's email. -/
def wDupEmailBody : RegisterBody :=
  { username := "mallory", password := "hunter2",
    email := "alice@example.org" }

/-- A registration body with a fresh username and email. -/
def wFreshBody : RegisterBody :=
  { username := "dave", password := "hunter2", email := "dave@example.org" }

/-- The user row created from `wFreshBody` in `wStore`. -/
def wDave : UserRec :=
  { id := 8, username := "dave", email := "dave@example.org",
    password := make_password "hunter2", is_staff := false, groups := [] }

/-- Witness for C6: registering with Alice's email in `wStore` fails and
leaves the store unchanged; registering `wFreshBody` succeeds, stores the
hash, and returns a payload without a password field. -/
theorem c6_witness :
    (∃ u ∈ wStore.users, u.email = wDupEmailBody.email) ∧
    RegisterSerializer.create wStore wDupEmailBody =
      (wStore, Except.error "user with this email address already exists.") ∧
    RegisterSerializer.create wStore wFreshBody =
      ({ wStore with users := [wAlice, wDave] },
        Except.ok [("username", "dave"), ("email", "dave@example.org")]) ∧
    ((∃ u ∈ ({ wStore with users := [wAlice, wDave] } : Store).users,
        u.username = wFreshBody.username ∧ u.email = wFreshBody.email ∧
        u.password = make_password wFreshBody.password) ∧
      ([("username", "dave"), ("email", "dave@example.org")].map Prod.fst) =
        ["username", "email"]) :=
  ⟨⟨wAlice, by decide, rfl⟩,
   (c6_register_hash_unique_email wStore wDupEmailBody).2.1
     ⟨wAlice, by decide, rfl⟩,
   rfl,
   (c6_register_hash_unique_email wStore wFreshBody).2.2
     { wStore with users := [wAlice, wDave] }
     [("username", "dave"), ("email", "dave@example.org")] rfl⟩

/-- C7: the view-count bump performed by a successful retrieve leaves the
user and rating tables untouched and, for every script row, every column
except `views` (in particular `modified`) exactly as it was. -/
theorem c7_retrieve_frame (store store' : Store) (pk : Nat) (inst : ScriptRec)
    (h : ScriptViewSet.retrieve store pk = some (store', inst)) :
    store'.users = store.users ∧ store'.ratings = store.ratings ∧
    ∀ s ∈ store.scripts, ∃ s' ∈ store'.scripts,
      s'.id = s.id ∧ s'.name = s.name ∧ s'.author = s.author ∧
      s'.created = s.created ∧ s'.modified = s.modified ∧
      s'.language = s.language ∧ s'.version = s.version ∧
      s'.description = s.description ∧ s'.licence = s.licence ∧
      s'.files = s.files ∧ s'.compatibility = s.compatibility := by
  unfold ScriptViewSet.retrieve at h
  rcases hr : retrieveReadStep store pk with _ | found
  · rw [hr] at h
    simp at h
  · rw [hr] at h
    simp only [Option.some.injEq, Prod.mk.injEq] at h
    obtain ⟨hst, hinst⟩ := h
    subst hst
    refine ⟨rfl, rfl, ?_⟩
    intro s hs
    refine ⟨(fun s => if s.id == found.id then
      { s with views := found.views + 1 } else s) s, ?_, ?_⟩
    · exact List.mem_map_of_mem _ hs
    · by_cases hc : s.id == found.id <;> simp [hc]

/-- A store with Alice's script at 3 views. -/
def wViewStore : Store :=
  { users := [wAlice],
    scripts := [{ wAliceScript with views := 3 }],
    ratings := [wRating] }

/-- The same store after one retrieve of script 1. -/
def wViewStoreAfter : Store :=
  { users := [wAlice],
    scripts := [{ wAliceScript with views := 4 }],
    ratings := [wRating] }

/-- Witness for C7: retrieving script 1 in `wViewStore` touches neither
the users nor the ratings table, and keeps every non-views column. -/
theorem c7_witness :
    ScriptViewSet.retrieve wViewStore 1 =
      some (wViewStoreAfter, { wAliceScript with views := 3 }) ∧
    (wViewStoreAfter.users = wViewStore.users ∧
     wViewStoreAfter.ratings = wViewStore.ratings ∧
     ∀ s ∈ wViewStore.scripts, ∃ s' ∈ wViewStoreAfter.scripts,
       s'.id = s.id ∧ s'.name = s.name ∧ s'.author = s.author ∧
       s'.created = s.created ∧ s'.modified = s.modified ∧
       s'.language = s.language ∧ s'.version = s.version ∧
       s'.description = s.description ∧ s'.licence = s.licence ∧
       s'.files = s.files ∧ s'.compatibility = s.compatibility) :=
  ⟨rfl,
   c7_retrieve_frame wViewStore wViewStoreAfter 1
     { wAliceScript with views := 3 } rfl⟩

/-- C2: a successful retrieve reads the stored row and leaves every
stored script with that primary key at exactly the read value plus 1, and
no operation of the API ever decreases a script's view counter. -/
theorem c2_views_plus_one_and_monotone :
    (∀ store pk store' inst,
      ScriptViewSet.retrieve store pk = some (store', inst) →
      retrieveReadStep store pk = some inst ∧ inst.id = pk ∧
      ∀ s' ∈ store'.scripts, s'.id = pk → s'.views = inst.views + 1) ∧
    (∀ store op s s', NodupScriptIds store → s ∈ store.scripts →
      s' ∈ (applyOp store op).scripts → s'.id = s.id →
      s.views ≤ s'.views) := by
  constructor
  · intro store pk store' inst h
    unfold ScriptViewSet.retrieve at h
    rcases hr : retrieveReadStep store pk with _ | found
    · rw [hr] at h
      simp at h
    · rw [hr] at h
      simp only [Option.some.injEq, Prod.mk.injEq] at h
      obtain ⟨hst, hinst⟩ := h
      subst hinst
      have hid : found.id = pk := by
        have := List.find?_some hr
        simpa using this
      refine ⟨rfl, hid, ?_⟩
      intro s' hs' hs'id
      subst hst
      unfold retrieveWriteStep at hs'
      simp only [List.mem_map] at hs'
      obtain ⟨t, ht, hft⟩ := hs'
      by_cases hc : (t.id == found.id) = true
      · rw [if_pos hc] at hft
        rw [← hft]
      · rw [if_neg hc] at hft
        subst hft
        exfalso
        apply hc
        simp [hs'id, hid]
  · intro store op s s' hnd hs hs' hid
    cases op with
    | retrieveScript pk =>
      simp only [applyOp] at hs'
      rcases hr : ScriptViewSet.retrieve store pk with _ | p
      · rw [hr] at hs'
        rw [script_id_inj hnd hs' hs hid]
      · obtain ⟨store1, inst⟩ := p
        rw [hr] at hs'
        unfold ScriptViewSet.retrieve at hr
        rcases hrr : retrieveReadStep store pk with _ | found
        · rw [hrr] at hr
          simp at hr
        · rw [hrr] at hr
          simp only [Option.some.injEq, Prod.mk.injEq] at hr
          obtain ⟨h1, h2⟩ := hr
          subst h2
          rw [← h1] at hs'
          have hfound_mem : found ∈ store.scripts :=
            List.mem_of_find?_eq_some hrr
          unfold retrieveWriteStep at hs'
          simp only [List.mem_map] at hs'
          obtain ⟨t, ht, hft⟩ := hs'
          by_cases hc : (t.id == found.id) = true
          · rw [if_pos hc] at hft
            have hid2 : t.id = s.id := by
              rw [← hid, ← hft]
            have htf : t.id = found.id := by simpa using hc
            have hfs : found = s := script_id_inj hnd hfound_mem hs
              (by rw [← htf, hid2])
            rw [← hft, hfs]
            show s.views ≤ s.views + 1
            omega
          · rw [if_neg hc] at hft
            subst hft
            rw [script_id_inj hnd ht hs hid]
    | createScript q b now =>
      simp only [applyOp, ScriptSerializer.create] at hs'
      rcases List.mem_append.mp hs' with h | h
      · rw [script_id_inj hnd h hs hid]
      · simp only [List.mem_singleton] at h
        subst h
        exfalso
        have hlt := freshScriptId_gt hs
        have heq : freshScriptId store = s.id := hid
        omega
    | updateScript pk vd now =>
      simp only [applyOp, scriptUpdateOp, List.mem_map] at hs'
      obtain ⟨t, ht, hft⟩ := hs'
      by_cases hc : (t.id == pk) = true
      · rw [if_pos hc] at hft
        have hid2 : t.id = s.id := by
          rw [← hid, ← hft]
        rw [script_id_inj hnd ht hs hid2] at hft
        rw [← hft]
      · rw [if_neg hc] at hft
        subst hft
        rw [script_id_inj hnd ht hs hid]
    | createRating q b now =>
      simp only [applyOp] at hs'
      rw [ratingCreate_scripts] at hs'
      rw [script_id_inj hnd hs' hs hid]
    | updateUser q t vd =>
      simp only [applyOp] at hs'
      rw [userUpdateOp_scripts] at hs'
      rw [script_id_inj hnd hs' hs hid]
    | register b =>
      simp only [applyOp] at hs'
      rw [register_scripts] at hs'
      rw [script_id_inj hnd hs' hs hid]
    | destroyUser uid =>
      simp only [applyOp, deleteUser] at hs'
      have := (List.mem_filter.mp hs').1
      rw [script_id_inj hnd this hs hid]
    | destroyScript pk =>
      simp only [applyOp, deleteScript] at hs'
      have := (List.mem_filter.mp hs').1
      rw [script_id_inj hnd this hs hid]
    | destroyRating rid =>
      simp only [applyOp, deleteRating] at hs'
      rw [script_id_inj hnd hs' hs hid]

/-- Witness for C2: retrieving script 1 in `wViewStore` (3 views) leaves
it at exactly 4 views, and the retrieve operation never lowered it. -/
theorem c2_witness :
    ScriptViewSet.retrieve wViewStore 1 =
      some (wViewStoreAfter, { wAliceScript with views := 3 }) ∧
    (retrieveReadStep wViewStore 1 = some { wAliceScript with views := 3 } ∧
     ({ wAliceScript with views := 3 } : ScriptRec).id = 1 ∧
     ∀ s' ∈ wViewStoreAfter.scripts, s'.id = 1 →
       s'.views = ({ wAliceScript with views := 3 } : ScriptRec).views + 1) ∧
    (NodupScriptIds wViewStore ∧
     ({ wAliceScript with views := 3 } : ScriptRec) ∈ wViewStore.scripts ∧
     ({ wAliceScript with views := 4 } : ScriptRec) ∈
       (applyOp wViewStore (Op.retrieveScript 1)).scripts) ∧
    ({ wAliceScript with views := 3 } : ScriptRec).views ≤
      ({ wAliceScript with views := 4 } : ScriptRec).views :=
  ⟨rfl,
   c2_views_plus_one_and_monotone.1 wViewStore 1 wViewStoreAfter
     { wAliceScript with views := 3 } rfl,
   ⟨by unfold NodupScriptIds; decide, by decide, by decide⟩,
   c2_views_plus_one_and_monotone.2 wViewStore (Op.retrieveScript 1)
     { wAliceScript with views := 3 } { wAliceScript with views := 4 }
     (by unfold NodupScriptIds; decide) (by decide) (by decide) (by decide)⟩

/-- A one-script store at 0 views for the concurrency analysis. -/
def c8Store : Store :=
  { users := [wAlice], scripts := [wAliceScript], ratings := [] }

/-- C8 is false of the code: the write step stores the handler-memory
snapshot plus one (`views=instance.views + 1`), not an atomic server-side
increment. Two concurrent retrievals of script 1 that both execute their
read step before either write step (read-read-write-write) leave the
counter at 1, though views_before + N = 2; the sequential composition of
the same two retrievals does give 2. -/
theorem c8_lost_update_counterexample :
    retrieveReadStep c8Store 1 = some wAliceScript ∧
    wAliceScript.views = 0 ∧
    ((retrieveWriteStep (retrieveWriteStep c8Store wAliceScript)
        wAliceScript).scripts.map (·.views)) = [1] ∧
    ((applyOp (applyOp c8Store (Op.retrieveScript 1))
        (Op.retrieveScript 1)).scripts.map (·.views)) = [2] := by
  decide
